import Mathlib

/-!
Shallow embedding of the `spotify_info` library (`src/src/lib.rs`).

The library accepts a local WebSocket connection from a spicetify
extension and decodes `;`-separated text frames into `Info` values.
The embedding below mirrors the Rust source:

* `State` / `State.from_u32`        — lib.rs lines 101-122
* `Info`                            — lib.rs lines 131-146
* `MessageError`                    — lib.rs lines 34-38
* `Handle` / `Handle.close`         — lib.rs lines 164-177
* `Listener.close`                  — lib.rs lines 221-222 (empty body)
* `decodeFields` / `decodeText`     — the `Message::Text` arm of
  `WebsocketConnection::next`, lib.rs lines 350-366
* `Message` / `connectionNext`      — the frame dispatch of
  `WebsocketConnection::next`, lib.rs lines 344-371
-/

namespace SpotifyInfo

/-- Playback state of the track: Playing, Paused or Stopped (lib.rs `enum State`). -/
inductive State where
  | Playing
  | Paused
  | Stopped
deriving Repr, DecidableEq

/-- Rust `State::from_u32`: `2 => Playing, 1 => Paused, _ => Stopped`.
The Rust argument type is `u32`; every value the program feeds in is a
`u32`, so `Nat` is a faithful carrier (the match is the same on any
natural number). -/
def State.from_u32 (n : Nat) : State :=
  match n with
  | 2 => .Playing
  | 1 => .Paused
  | _ => .Stopped

/-- Rust `struct Info` (lib.rs lines 131-146): the decoded track record. -/
structure Info where
  state : State
  title : String
  album : String
  artist : List String
  cover_url : Option String
  background_url : Option String
deriving Repr, DecidableEq

/-- Rust `enum MessageError { Invalid, Other(tungstenite::Error) }`.
The payload of `Other` is an opaque transport error, never inspected, so
it is dropped. -/
inductive MessageError where
  | Invalid
  | Other
deriving Repr, DecidableEq

deriving instance DecidableEq for Except

/-- Rust `str::split(char)` on a character list: every occurrence of the
separator ends a field, adjacent separators and separators at either end
produce empty fields, and the empty input yields one empty field —
exactly the semantics of `msg.split(';')`. -/
def splitOnChar (sep : Char) : List Char → List (List Char)
  | [] => [[]]
  | c :: cs =>
    let r := splitOnChar sep cs
    if c = sep then
      [] :: r
    else
      match r with
      | [] => [[c]]
      | f :: rest => (c :: f) :: rest

/-- Rust `msg.split(sep).collect::<Vec<_>>()` at the `String` level. -/
def split (s : String) (sep : Char) : List String :=
  (splitOnChar sep s.data).map String.mk

/-- Rust `str::parse::<u32>()` : an optional leading `+`, then one or
more ASCII digits, value below `2^32`; anything else fails. -/
def parseU32 (s : String) : Option Nat :=
  let digits :=
    match s.data with
    | '+' :: rest => rest
    | l => l
  if digits.isEmpty then
    none
  else if digits.all (fun c => 48 ≤ c.toNat && c.toNat ≤ 57) then
    let n := digits.foldl (fun a c => a * 10 + (c.toNat - 48)) 0
    if n < 2 ^ 32 then some n else none
  else
    none

/-- The body of the `Message::Text(msg)` arm of
`WebsocketConnection::next` after `msg.split(';')` has produced `data`:
fewer than 6 fields is `Err(MessageError::Invalid)`, otherwise the
fields are consumed positionally as
`state; title; album; artist; cover; background`
(`data[0].parse().unwrap_or(0)` feeds `State::from_u32`). -/
def decodeFields (data : List String) : Except MessageError Info :=
  if h : data.length < 6 then
    .error .Invalid
  else
    .ok {
      state := State.from_u32 ((parseU32 (data.get ⟨0, by omega⟩)).getD 0)
      title := data.get ⟨1, by omega⟩
      album := data.get ⟨2, by omega⟩
      artist := [data.get ⟨3, by omega⟩]
      cover_url := some (data.get ⟨4, by omega⟩)
      background_url := some (data.get ⟨5, by omega⟩) }

/-- The `Message::Text` arm of `WebsocketConnection::next`:
split the frame on `;` and decode the fields positionally. -/
def decodeText (msg : String) : Except MessageError Info :=
  decodeFields (split msg ';')

/-- Rust `tungstenite::Message`: the kinds of WebSocket frame
`WebsocketConnection::next` can receive. Binary, ping and pong carry
opaque byte payloads. -/
inductive Message where
  | close
  | text (msg : String)
  | binary (payload : List Nat)
  | ping (payload : List Nat)
  | pong (payload : List Nat)
deriving Repr, DecidableEq

/-- `WebsocketConnection::next` (lib.rs lines 344-371). The argument is
the outcome of `read_message()`: `none` models a transport error or EOF
(swallowed by `.ok()?`, which ends the iterator), `some m` a received
frame. `none` as result ends the event sequence; `some r` keeps the
connection iterable. -/
def connectionNext (received : Option Message) : Option (Except MessageError Info) :=
  match received with
  | none => none
  | some .close => none
  | some (.text msg) => some (decodeText msg)
  | some (.binary _) => some (.error .Invalid)
  | some (.ping _) => some (.error .Invalid)
  | some (.pong _) => some (.error .Invalid)

/-- Draining one connection: feed the incoming frames one by one to
`connectionNext`; the sequence of yielded results ends at the first
`none` (close frame or EOF, the end of the list being EOF). -/
def connectionRun (frames : List Message) : List (Except MessageError Info) :=
  match frames with
  | [] => []
  | m :: rest =>
    match connectionNext (some m) with
    | none => []
    | some r => r :: connectionRun rest

/-- Rust `struct Handle { is_closed: Arc<AtomicBool> }` (lib.rs lines
164-167): the shared cancellation flag. -/
structure Handle where
  is_closed : Bool
deriving Repr, DecidableEq

/-- `Handle::new` / `Handle::default`: flag starts armed (false). -/
def Handle.new : Handle :=
  { is_closed := false }

/-- `Handle::close`: `self.is_closed.store(true, Ordering::SeqCst)`. -/
def Handle.close (_h : Handle) : Handle :=
  { is_closed := true }

/-- The only state-mutating operation the library exposes on a `Handle`
is `close`; reads (`load`) do not change it. -/
inductive HandleOp where
  | close
deriving Repr, DecidableEq

/-- Apply one library operation to a `Handle`. -/
def applyOp (h : Handle) (op : HandleOp) : Handle :=
  match op with
  | .close => h.close

/-- Apply a sequence of library operations to a `Handle`. -/
def applyOps (h : Handle) (ops : List HandleOp) : Handle :=
  ops.foldl applyOp h

/-- Rust `struct Listener`: of its fields only the `handle` matters for
cancellation; the socket, poll and event fields are opaque I/O state. -/
structure Listener where
  handle : Handle
deriving Repr, DecidableEq

/-- Rust `Listener::close` (lib.rs lines 221-222). Its body is empty:
`pub fn close(&self) {}` — it mutates nothing, so on the state it is the
identity. -/
def Listener.close (l : Listener) : Listener :=
  l

/-- The `should_close` closure of `ListenerIter::next` (lib.rs line
244): `self.listener.handle.is_closed.load(Ordering::SeqCst)`, checked
at the top of each accept iteration and each receive iteration. -/
def shouldClose (l : Listener) : Bool :=
  l.handle.is_closed

/-- Observer: the number of artist entries of a successfully decoded
result, `none` on a decode error. -/
def artistCount (r : Except MessageError Info) : Option Nat :=
  r.toOption.map (fun info => info.artist.length)

/-- Reduction of `decodeFields` on a list with at least six fields. -/
theorem decodeFields_cons (d0 d1 d2 d3 d4 d5 : String) (rest : List String) :
    decodeFields (d0 :: d1 :: d2 :: d3 :: d4 :: d5 :: rest) =
      .ok { state := State.from_u32 ((parseU32 d0).getD 0), title := d1, album := d2,
            artist := [d3], cover_url := some d4, background_url := some d5 } := by
  have hnot : ¬ (d0 :: d1 :: d2 :: d3 :: d4 :: d5 :: rest).length < 6 := by
    simp
  unfold decodeFields
  rw [dif_neg hnot]
  rfl

/-- A list of length at least six starts with six explicit elements. -/
theorem exists_six_of_le_length (l : List String) (h : 6 ≤ l.length) :
    ∃ a b c d e f r, l = a :: b :: c :: d :: e :: f :: r := by
  rcases l with _ | ⟨a, l⟩
  · simp at h
  rcases l with _ | ⟨b, l⟩
  · simp at h
  rcases l with _ | ⟨c, l⟩
  · simp at h
  rcases l with _ | ⟨d, l⟩
  · simp at h
  rcases l with _ | ⟨e, l⟩
  · simp at h
  rcases l with _ | ⟨f, l⟩
  · simp at h
  exact ⟨a, b, c, d, e, f, l, rfl⟩

/-- C1, counterexample: the frame
`TRACK_CHANGED;id1;uri1;2;180000;Song;Album;Artist;http://c;NONE`
does not decode to a track with state Playing, title `Song` and no
background; the decoder has no KIND tag and reads the fields
positionally as `state;title;album;artist;cover;background`, so the
frame decodes to state Stopped (the token `TRACK_CHANGED` is not a
number and defaults to 0), title `id1`, album `uri1`, artist `2`, cover
`180000` and background `Song`. -/
theorem c1_decode_counterexample :
    decodeText "TRACK_CHANGED;id1;uri1;2;180000;Song;Album;Artist;http://c;NONE" =
      .ok { state := .Stopped, title := "id1", album := "uri1", artist := ["2"],
            cover_url := some "180000", background_url := some "Song" } ∧
      State.Stopped ≠ State.Playing ∧
      ("id1" : String) ≠ "Song" ∧
      (some "Song" : Option String) ≠ none := by
  refine ⟨by decide, by decide, by decide, by decide⟩

/-- C1 (corrected): decoding the frame
`TRACK_CHANGED;id1;uri1;2;180000;Song;Album;Artist;http://c;NONE`
yields `Ok` of the `Info` whose state is Stopped, title `id1`, album
`uri1`, artist list `[2]`, cover `Some 180000` and background
`Some Song`; the decoded record has no uid and no duration field. -/
theorem c1_decode_amended :
    decodeText "TRACK_CHANGED;id1;uri1;2;180000;Song;Album;Artist;http://c;NONE" =
      .ok { state := .Stopped, title := "id1", album := "uri1", artist := ["2"],
            cover_url := some "180000", background_url := some "Song" } := by
  decide

/-- C2, counterexample: the decoder has no notion of a KIND token.
`a;b;c;d;e;f` (whose leading token is not one of
TRACK_CHANGED/STATE_CHANGED/PROGRESS_CHANGED) decodes successfully, and
`STATE_CHANGED;1` (which the claim says decodes successfully) is
rejected as Invalid because it has fewer than six fields. -/
theorem c2_kind_counterexample :
    (decodeText "a;b;c;d;e;f").isOk = true ∧
      decodeText "STATE_CHANGED;1" = .error .Invalid := by
  refine ⟨by decide, by decide⟩

/-- C2 (corrected): decoding returns `Err(MessageError::Invalid)`
exactly when the frame splits on `;` into fewer than six fields (the
empty frame splits into one empty field and is rejected); every frame
with at least six fields decodes successfully, with no condition on the
content of any field. -/
theorem c2_invalid_iff_short (s : String) :
    decodeText s = .error .Invalid ↔ (split s ';').length < 6 := by
  unfold decodeText decodeFields
  by_cases h : (split s ';').length < 6
  · simp [h]
  · simp [h]

/-- C3: `Listener::close` has an empty body, so it changes nothing: on a
listener whose handle is still armed, the `should_close` check of
`ListenerIter::next` still reads `false` after `close()` has been
invoked, and the delivery loop does not stop — contradicting the
function's own documentation. -/
theorem c3_listener_close_noop :
    Listener.close { handle := Handle.new } = { handle := Handle.new } ∧
      shouldClose (Listener.close { handle := Handle.new }) = false :=
  ⟨rfl, rfl⟩

/-- C4 (confirmed): `State::from_u32` is total and never errors: 2 maps
to Playing, 1 maps to Paused, and every other value (including 0 and all
out-of-range values) maps to Stopped. -/
theorem c4_from_u32_total (n : Nat) :
    State.from_u32 n =
      if n = 2 then State.Playing
      else if n = 1 then State.Paused
      else State.Stopped := by
  match n with
  | 0 => rfl
  | 1 => rfl
  | 2 => rfl
  | (n + 3) => rfl

/-- C5, counterexample: the sentinel text `NONE` is not treated
specially: a frame whose cover and background fields are the literal
text `NONE` decodes with `cover_url = some "NONE"` and
`background_url = some "NONE"`, not with `none`. -/
theorem c5_none_counterexample :
    decodeText "2;t;al;ar;NONE;NONE" =
      .ok { state := .Playing, title := "t", album := "al", artist := ["ar"],
            cover_url := some "NONE", background_url := some "NONE" } ∧
      (some "NONE" : Option String) ≠ none := by
  refine ⟨by decide, by decide⟩

/-- C5 (corrected): for every successfully decoded message the cover and
background fields are always `some` of the fifth and sixth wire fields
verbatim; no sentinel maps to `none`, and the sentinel never causes a
decode error. -/
theorem c5_urls_verbatim (d0 d1 d2 d3 d4 d5 : String) (rest : List String) :
    (decodeFields (d0 :: d1 :: d2 :: d3 :: d4 :: d5 :: rest)).toOption.map Info.cover_url =
        some (some d4) ∧
      (decodeFields (d0 :: d1 :: d2 :: d3 :: d4 :: d5 :: rest)).toOption.map Info.background_url =
        some (some d5) := by
  rw [decodeFields_cons]
  constructor
  · rfl
  · rfl

/-- C6, counterexample: no escape-token substitution is performed. A
title field containing an escape-style token (here `&SEMI&`) decodes to
the field text verbatim — the token is still present, and the decoded
title contains no `;` delimiter character at all. -/
theorem c6_escape_counterexample :
    (decodeText "2;a&SEMI&b;al;ar;c;b").toOption.map Info.title = some "a&SEMI&b" ∧
      (decodeText "2;a&SEMI&b;al;ar;c;b").toOption.map Info.title ≠ some "a;b" ∧
      ("a&SEMI&b".data.contains ';') = false := by
  refine ⟨by decide, by decide, by decide⟩

/-- C6 (corrected): the free-text fields title, album and artist of
every successfully decoded message are the second, third and fourth wire
fields copied verbatim; the decoder performs no escape-token
substitution, so no escape token is ever turned back into a literal
delimiter character. -/
theorem c6_text_fields_verbatim (d0 d1 d2 d3 d4 d5 : String) (rest : List String) :
    (decodeFields (d0 :: d1 :: d2 :: d3 :: d4 :: d5 :: rest)).toOption.map Info.title =
        some d1 ∧
      (decodeFields (d0 :: d1 :: d2 :: d3 :: d4 :: d5 :: rest)).toOption.map Info.album =
        some d2 ∧
      (decodeFields (d0 :: d1 :: d2 :: d3 :: d4 :: d5 :: rest)).toOption.map Info.artist =
        some [d3] := by
  rw [decodeFields_cons]
  refine ⟨rfl, rfl, rfl⟩

/-- C7 (confirmed): on an otherwise well-formed frame (at least six
fields), a state-code field that fails to parse as a `u32` defaults to 0
— so the state becomes `from_u32 0 = Stopped` — and the message still
decodes successfully; the parse failure is never promoted to an error.
(The decoder reads no other numeric field: there is no duration field.) -/
theorem c7_numeric_default (d0 d1 d2 d3 d4 d5 : String) (rest : List String)
    (h : parseU32 d0 = none) :
    decodeFields (d0 :: d1 :: d2 :: d3 :: d4 :: d5 :: rest) =
      .ok { state := State.Stopped, title := d1, album := d2, artist := [d3],
            cover_url := some d4, background_url := some d5 } := by
  rw [decodeFields_cons, h]
  rfl

/-- C7 witness: the non-numeric state field `x` fails to parse and the
frame still decodes, with state Stopped. -/
theorem c7_numeric_default_witness :
    parseU32 "x" = none ∧
      decodeFields ["x", "t", "al", "ar", "c", "b"] =
        .ok { state := State.Stopped, title := "t", album := "al", artist := ["ar"],
              cover_url := some "c", background_url := some "b" } :=
  ⟨by decide, c7_numeric_default "x" "t" "al" "ar" "c" "b" [] (by decide)⟩

/-- C8 (confirmed): `WebsocketConnection::next` hands every text frame
to the decoder and yields its result; a binary, ping or pong frame
yields `Err(MessageError::Invalid)` and the iteration continues with the
remaining frames (the connection stays open); a close frame ends the
sequence, and a transport error or EOF (`read_message()` failing, or no
further frames) also ends the sequence. -/
theorem c8_frame_dispatch :
    (∀ (msg : String) (rest : List Message),
        connectionRun (.text msg :: rest) = decodeText msg :: connectionRun rest) ∧
      (∀ (p : List Nat) (rest : List Message),
        connectionRun (.binary p :: rest) = .error .Invalid :: connectionRun rest) ∧
      (∀ (p : List Nat) (rest : List Message),
        connectionRun (.ping p :: rest) = .error .Invalid :: connectionRun rest) ∧
      (∀ (p : List Nat) (rest : List Message),
        connectionRun (.pong p :: rest) = .error .Invalid :: connectionRun rest) ∧
      (∀ rest : List Message, connectionRun (.close :: rest) = []) ∧
      connectionNext none = none ∧
      connectionRun [] = [] := by
  refine ⟨fun _ _ => rfl, fun _ _ => rfl, fun _ _ => rfl, fun _ _ => rfl, fun _ => rfl,
    rfl, rfl⟩

/-- C9 (confirmed): once the flag of a `Handle` has been set by
`close()`, every subsequent library operation leaves it set and every
read by the delivery loop (`should_close`) observes it as set: the only
mutating operation the library has, `Handle::close`, stores `true`, and
nothing ever stores `false` again. -/
theorem c9_close_monotone (h : Handle) (ops : List HandleOp) (hreq : h.is_closed = true) :
    (applyOps h ops).is_closed = true ∧
      shouldClose { handle := applyOps h ops } = true := by
  have key : ∀ (l : List HandleOp) (g : Handle),
      g.is_closed = true → (applyOps g l).is_closed = true := by
    intro l
    induction l with
    | nil => intro g hg; exact hg
    | cons op l ih =>
      intro g _
      cases op
      exact ih (Handle.close g) rfl
  exact ⟨key ops h hreq, key ops h hreq⟩

/-- C9 witness: a freshly created handle, closed once, stays closed
across a further close operation, and the loop's check observes it. -/
theorem c9_close_monotone_witness :
    (Handle.close Handle.new).is_closed = true ∧
      ((applyOps (Handle.close Handle.new) [HandleOp.close]).is_closed = true ∧
        shouldClose { handle := applyOps (Handle.close Handle.new) [HandleOp.close] } = true) :=
  ⟨rfl, c9_close_monotone (Handle.close Handle.new) [HandleOp.close] rfl⟩

/-- C10 (confirmed): every frame whose `;`-split has at least six fields
decodes successfully regardless of the fields' contents, the result
depends only on the first six fields (two frames agreeing on those
decode identically), and the decoded artist list always has exactly one
element. -/
theorem c10_six_fields (s t : String)
    (hs : 6 ≤ (split s ';').length)
    (h6 : (split s ';').take 6 = (split t ';').take 6) :
    (decodeText s).isOk = true ∧
      decodeText s = decodeText t ∧
      artistCount (decodeText s) = some 1 := by
  obtain ⟨a, b, c, d, e, f, rs, hls⟩ := exists_six_of_le_length _ hs
  have hlen : 6 ≤ (split t ';').length := by
    have h1 := congrArg List.length h6
    rw [List.length_take, List.length_take, hls] at h1
    simp at h1
    omega
  obtain ⟨a2, b2, c2, d2, e2, f2, rt, hlt⟩ := exists_six_of_le_length _ hlen
  rw [hls, hlt] at h6
  have h7 : ([a, b, c, d, e, f] : List String) = [a2, b2, c2, d2, e2, f2] := h6
  simp only [List.cons.injEq, and_true] at h7
  obtain ⟨e1, e2', e3, e4, e5, e6⟩ := h7
  unfold decodeText
  rw [hls, hlt, decodeFields_cons, decodeFields_cons, e1, e2', e3, e4, e5, e6]
  refine ⟨rfl, rfl, rfl⟩

/-- C10 witness: two concrete frames agreeing on their first six fields
decode successfully, identically, with a one-element artist list. -/
theorem c10_six_fields_witness :
    (decodeText "a;b;c;d;e;f").isOk = true ∧
      decodeText "a;b;c;d;e;f" = decodeText "a;b;c;d;e;f;g" ∧
      artistCount (decodeText "a;b;c;d;e;f") = some 1 :=
  c10_six_fields "a;b;c;d;e;f" "a;b;c;d;e;f;g" (by decide) (by decide)

end SpotifyInfo
